import Mathlib

/-!
# Verification of the `learning-webgpu` snippet functions

A shallow embedding of the executable script snippets of this repository
(`src/docs/fundamentals.md` and `src/docs/inter-stage-variables.md`).

Each snippet is an `async` JavaScript function that talks to the browser
through the WebGPU API (`navigator.gpu`, `GPUDevice`, ...) and the DOM
(`alert`, `document.createElement`).  We model the browser as a `Host`
record fixing the outcome of the host calls that can vary (whether
`requestAdapter` resolves to an adapter, whether `requestDevice` resolves
to a truthy device, the preferred canvas format, the identity of a freshly
created canvas).  Each snippet function becomes a pure Lean function from
its JavaScript arguments and a `Host` to a `Run`: the value the returned
promise settles with (`Except JsError SnippetResult`, an `error` being a
rejection with an uncaught exception) together with the sequence of host
API calls the function issued, in order, each tagged with whether the
snippet `await`ed it.

JavaScript numbers and the f32 values stored in GPU buffers are modelled
as rationals; the host conversion performed by `new Float32Array(numbers)`
(f64 → f32 rounding) is an explicit parameter `toF32` of the `doubleGPU`
embedding, and the WGSL statement `data[i] = data[i] * 2.0` is exact
doubling (doubling a finite binary floating-point value is exact).

GPU objects (shader modules, pipelines, buffers) are identified in trace
events by their creation index within the run, so that which module a
pipeline descriptor references is visible in the trace.
-/

namespace LearningWebGPU

/-- The argument of `device.createShaderModule({ label, code })`. -/
structure ShaderDesc where
  label : Option String
  code : String
deriving DecidableEq, Repr

/-- The WebGPU buffer-usage bit flags used by the snippets
(`GPUBufferUsage.*` in JavaScript). -/
def GPUBufferUsage.MAP_READ : Nat := 0x0001
def GPUBufferUsage.COPY_SRC : Nat := 0x0004
def GPUBufferUsage.COPY_DST : Nat := 0x0008
def GPUBufferUsage.STORAGE : Nat := 0x0080

/-- `GPUMapMode.READ`, the argument of `resultBuffer.mapAsync`. -/
def GPUMapMode.READ : Nat := 0x0001

/-- One host API call issued by a snippet, with the arguments the snippet
passes.  GPU objects created during the run (shader modules, buffers) are
referred to by their creation index. -/
inductive Ev where
  /-- `navigator.gpu.requestAdapter()` -/
  | requestAdapter
  /-- `adapter.requestDevice()` -/
  | requestDevice
  /-- `alert(msg)` (the body of `fail`) -/
  | alert (msg : String)
  /-- `canvas.getContext(kind)` -/
  | getContext (kind : String)
  /-- `navigator.gpu.getPreferredCanvasFormat()` -/
  | getPreferredCanvasFormat
  /-- `context.configure({ device, format })` -/
  | configure (format : String)
  /-- `device.createShaderModule(desc)`; `id` is the module's creation index -/
  | createShaderModule (id : Nat) (desc : ShaderDesc)
  /-- `device.createRenderPipeline({...})`; modules by creation index -/
  | createRenderPipeline (label : String) (layout : String)
      (vertexModule : Nat) (fragmentModule : Nat) (targetFormat : String)
  /-- `device.createComputePipeline({...})` -/
  | createComputePipeline (label : String) (layout : String) (module : Nat)
  /-- `device.createBuffer({...})`; `id` is the buffer's creation index -/
  | createBuffer (id : Nat) (label : String) (size : Nat) (usage : Nat)
  /-- `device.queue.writeBuffer(buffer, offset, data)`; data as f32 values -/
  | writeBuffer (buffer : Nat) (offset : Nat) (data : List ℚ)
  /-- `pipeline.getBindGroupLayout(index)` -/
  | getBindGroupLayout (index : Nat)
  /-- `device.createBindGroup({...})`: one entry `{ binding, resource: { buffer } }` -/
  | createBindGroup (label : String) (binding : Nat) (buffer : Nat)
  /-- `device.createCommandEncoder({ label })` -/
  | createCommandEncoder (label : String)
  /-- `encoder.beginRenderPass(renderPassDescriptor)` -/
  | beginRenderPass (label : String) (clearValue : List ℚ)
      (loadOp : String) (storeOp : String)
  /-- `encoder.beginComputePass({ label })` -/
  | beginComputePass (label : String)
  /-- `pass.setPipeline(pipeline)` -/
  | setPipeline
  /-- `pass.setBindGroup(index, bindGroup)` -/
  | setBindGroup (index : Nat)
  /-- `pass.draw(n)` -/
  | draw (n : Nat)
  /-- `pass.dispatchWorkgroups(n)` -/
  | dispatchWorkgroups (n : Nat)
  /-- `pass.end()` -/
  | endPass
  /-- `encoder.copyBufferToBuffer(src, srcOff, dst, dstOff, size)` -/
  | copyBufferToBuffer (src : Nat) (srcOffset : Nat)
      (dst : Nat) (dstOffset : Nat) (size : Nat)
  /-- `encoder.finish()` -/
  | finish
  /-- `device.queue.submit([commandBuffer])` -/
  | submit
  /-- `context.getCurrentTexture()` -/
  | getCurrentTexture
  /-- `texture.createView()` -/
  | createView
  /-- `resultBuffer.mapAsync(mode)` -/
  | mapAsync (mode : Nat)
  /-- `resultBuffer.getMappedRange()` -/
  | getMappedRange
  /-- `resultBuffer.unmap()` -/
  | unmap
deriving DecidableEq, Repr

/-- A trace entry: a host call together with whether the snippet `await`ed
its result (i.e. whether an `await` keyword stands before the call in the
source). -/
structure Event where
  awaited : Bool
  call : Ev
deriving DecidableEq, Repr

/-- An uncaught JavaScript exception (the promise returned by the snippet
rejects with it). -/
inductive JsError where
  /-- e.g. reading a property of `null` -/
  | typeError (msg : String)
deriving DecidableEq, Repr

/-- The value a snippet's promise resolves with.  Canvas elements are
identified by an id; a `Float32Array` is its list of f32 values. -/
inductive SnippetResult where
  | canvas (id : Nat)
  | floatArray (xs : List ℚ)
  | undef
deriving DecidableEq, Repr

deriving instance DecidableEq for Except

/-- The observable outcome of one call of a snippet function: how its
promise settles, and the ordered host calls it issued. -/
structure Run where
  result : Except JsError SnippetResult
  trace : List Event
deriving DecidableEq, Repr

/-- The browser environment a snippet runs against: whether
`navigator.gpu.requestAdapter()` resolves to an adapter (vs `null`),
whether `adapter.requestDevice()` then resolves to a truthy device, the
string returned by `navigator.gpu.getPreferredCanvasFormat()`, and the id
of the canvas a `document.createElement("canvas")` call would produce. -/
structure Host where
  hasAdapter : Bool
  hasDevice : Bool
  preferredFormat : String
  newCanvas : Nat
deriving DecidableEq, Repr

/-- The rejection JavaScript produces for
`(await navigator.gpu.requestAdapter()).requestDevice()` when the adapter
is `null`. -/
def adapterNullError : JsError :=
  .typeError "Cannot read properties of null (reading 'requestDevice')"

/-- The message passed to `fail` by every snippet. -/
def needWebGPUMsg : String := "need a browser that supports WebGPU"

/-- `fail(msg)` from the appendix of both documents: calls `alert(msg)`.
In the embedding it contributes one (un-awaited) `alert` trace event. -/
def fail (msg : String) : Event := ⟨false, .alert msg⟩

/-- The two awaited acquisition calls every snippet starts with:
`await navigator.gpu.requestAdapter()` and
`await adapter.requestDevice()`. -/
def acquireEvents : List Event :=
  [⟨true, .requestAdapter⟩, ⟨true, .requestDevice⟩]

/-- The shader-module descriptor hardcoded in `drawTrianglesToTextures`
(`src/docs/fundamentals.md`). -/
def redTriangleShader : ShaderDesc where
  label := some "our hardcoded red triangle shaders"
  code := "
      @vertex fn vs(
        @builtin(vertex_index) vertexIndex : u32
      ) -> @builtin(position) vec4f {
        let pos = array(
          vec2f( 0.0,  0.5),  // top center
          vec2f(-0.5, -0.5),  // bottom left
          vec2f( 0.5, -0.5)   // bottom right
        );

        return vec4f(pos[vertexIndex], 0.0, 1.0);
      }

      @fragment fn fs() -> @location(0) vec4f {
        return vec4f(1, 0, 0, 1);
      }
    "

/-- The shader-module descriptor hardcoded in `doubleGPU`
(`src/docs/fundamentals.md`). -/
def doublingShader : ShaderDesc where
  label := some "doubling compute module"
  code := "
      @group(0) @binding(0) var<storage, read_write> data: array<f32>;

      @compute @workgroup_size(1) fn computeSomething(
        @builtin(global_invocation_id) id: vec3u
      ) {
        let i = id.x;
        data[i] = data[i] * 2.0;
      }
    "

/-- The body of `render()` shared verbatim by `drawTrianglesToTextures`
and `drawTriangleWithShader`: fill in the render-pass view from the
canvas, encode one render pass with one `draw(3)`, and submit. -/
def renderEvents : List Event :=
  [⟨false, .getCurrentTexture⟩,
   ⟨false, .createView⟩,
   ⟨false, .createCommandEncoder "our encoder"⟩,
   ⟨false, .beginRenderPass "our basic canvas renderPass"
      [3/10, 3/10, 3/10, 1] "clear" "store"⟩,
   ⟨false, .setPipeline⟩,
   ⟨false, .draw 3⟩,
   ⟨false, .endPass⟩,
   ⟨false, .finish⟩,
   ⟨false, .submit⟩]

/-- `drawTrianglesToTextures(canvas)` from `src/docs/fundamentals.md`,
lines 36–122.  `canvas` is the id of the canvas element passed as
argument (the default argument `document.createElement("canvas")` is a
fresh canvas supplied by the caller's host). -/
def drawTrianglesToTextures (h : Host) (canvas : Nat) : Run :=
  if !h.hasAdapter then
    { result := .error adapterNullError, trace := [⟨true, .requestAdapter⟩] }
  else if !h.hasDevice then
    { result := .ok .undef, trace := acquireEvents ++ [fail needWebGPUMsg] }
  else
    { result := .ok (.canvas canvas)
      trace := acquireEvents ++
        [⟨false, .getContext "webgpu"⟩,
         ⟨false, .getPreferredCanvasFormat⟩,
         ⟨false, .configure h.preferredFormat⟩,
         ⟨false, .createShaderModule 0 redTriangleShader⟩,
         ⟨false, .createRenderPipeline "our hardcoded red triangle pipeline"
            "auto" 0 0 h.preferredFormat⟩] ++
        renderEvents }

/-- One invocation of the WGSL entry point `computeSomething` of the
doubling compute shader, with `id.x = i`:
`data[i] = data[i] * 2.0` (exact, since doubling an f32 is exact). -/
def shaderInvocation (data : List ℚ) (i : Nat) : List ℚ :=
  data.set i (2 * data.getD i 0)

/-- `pass.dispatchWorkgroups(n)` with `@workgroup_size(1)`: one shader
invocation for each `global_invocation_id.x` in `0 .. n-1`. -/
def runDispatch (data : List ℚ) (n : Nat) : List ℚ :=
  (List.range n).foldl shaderInvocation data

/-- `doubleGPU(numbers)` from `src/docs/fundamentals.md`, lines 142–227.
`toF32` is the host's f64 → f32 rounding applied by
`new Float32Array(numbers)`; `numbers` is the JavaScript array argument. -/
def doubleGPU (h : Host) (toF32 : ℚ → ℚ) (numbers : List ℚ) : Run :=
  if !h.hasAdapter then
    { result := .error adapterNullError, trace := [⟨true, .requestAdapter⟩] }
  else if !h.hasDevice then
    { result := .ok .undef, trace := acquireEvents ++ [fail needWebGPUMsg] }
  else
    let input := numbers.map toF32
    let byteLength := 4 * input.length
    -- contents of the work buffer after the submitted commands run:
    -- the dispatched shader doubles each of the `input.length` elements
    let worked := runDispatch input input.length
    { result := .ok (.floatArray worked)
      trace := acquireEvents ++
        [⟨false, .createShaderModule 0 doublingShader⟩,
         ⟨false, .createComputePipeline "doubling compute pipeline" "auto" 0⟩,
         ⟨false, .createBuffer 0 "work buffer" byteLength
            (GPUBufferUsage.STORAGE ||| GPUBufferUsage.COPY_SRC |||
             GPUBufferUsage.COPY_DST)⟩,
         ⟨false, .writeBuffer 0 0 input⟩,
         ⟨false, .createBuffer 1 "result buffer" byteLength
            (GPUBufferUsage.MAP_READ ||| GPUBufferUsage.COPY_DST)⟩,
         ⟨false, .getBindGroupLayout 0⟩,
         ⟨false, .createBindGroup "bindGroup for work buffer" 0 0⟩,
         ⟨false, .createCommandEncoder "doubling encoder"⟩,
         ⟨false, .beginComputePass "doubling compute pass"⟩,
         ⟨false, .setPipeline⟩,
         ⟨false, .setBindGroup 0⟩,
         ⟨false, .dispatchWorkgroups input.length⟩,
         ⟨false, .endPass⟩,
         ⟨false, .copyBufferToBuffer 0 0 1 0 byteLength⟩,
         ⟨false, .finish⟩,
         ⟨false, .submit⟩,
         ⟨true, .mapAsync GPUMapMode.READ⟩,
         ⟨false, .getMappedRange⟩,
         ⟨false, .unmap⟩] }

/-- `drawTriangleWithShader(shader, fragmentShader)` from
`src/docs/inter-stage-variables.md`, lines 187–257.  The canvas is
created by `document.createElement("canvas")`, so the run returns
`h.newCanvas`.  When `fragmentShader` is supplied, a second shader module
is created (while evaluating the pipeline descriptor, hence before
`createRenderPipeline`) and used as the fragment stage's module. -/
def drawTriangleWithShader (h : Host) (shader : ShaderDesc)
    (fragmentShader : Option ShaderDesc) : Run :=
  if !h.hasAdapter then
    { result := .error adapterNullError, trace := [⟨true, .requestAdapter⟩] }
  else if !h.hasDevice then
    { result := .ok .undef, trace := acquireEvents ++ [fail needWebGPUMsg] }
  else
    { result := .ok (.canvas h.newCanvas)
      trace := acquireEvents ++
        [⟨false, .getContext "webgpu"⟩,
         ⟨false, .getPreferredCanvasFormat⟩,
         ⟨false, .configure h.preferredFormat⟩,
         ⟨false, .createShaderModule 0 shader⟩] ++
        (match fragmentShader with
         | some fs => [⟨false, .createShaderModule 1 fs⟩]
         | none => []) ++
        [⟨false, .createRenderPipeline "our hardcoded red triangle pipeline"
            "auto" 0 (if fragmentShader.isSome then 1 else 0)
            h.preferredFormat⟩] ++
        renderEvents }

/-- `props.transform.braces` from the repository's vitepress theme
override, `src/docs/.vitepress/theme/index.js` lines 6–11: the transform
the theme hands the documentation tool for brace-delimited script blocks,
an arrow function of `code` returning the template literal whose value is
the fixed prefix `(() => `, then the block text `code`, then the fixed
suffix `)()`. -/
def bracesTransform (code : String) : String :=
  "(() => " ++ code ++ ")()"

/-- The calls of the device-acquisition prologue shared by all snippets. -/
def acquisitionCall : Ev → Bool
  | .requestAdapter => true
  | .requestDevice => true
  | _ => false

/-- Erase the shader-module descriptor from a call (used to compare two
traces up to the shader source strings). -/
def eraseShaderDesc : Ev → Ev
  | .createShaderModule id _ => .createShaderModule id ⟨none, ""⟩
  | e => e

/-- A trace up to shader-module descriptors. -/
def eraseShaderDescs (t : List Event) : List Event :=
  t.map fun e => ⟨e.awaited, eraseShaderDesc e.call⟩

/-- Is a call `navigator.gpu.requestAdapter()`? -/
def isRequestAdapter : Ev → Bool
  | .requestAdapter => true
  | _ => false

/-- Is a call `adapter.requestDevice()`? -/
def isRequestDevice : Ev → Bool
  | .requestDevice => true
  | _ => false

/-- The spec's single repository-wide failure path, as a predicate on one
run against host `h`: the promise rejects exactly when the adapter was
`null` (nothing is caught), the alert is raised exactly when an adapter
was obtained but the device was falsy, and neither acquisition call is
ever retried. -/
def singleFailurePath (h : Host) (r : Run) : Prop :=
  ((∃ e, r.result = .error e) ↔ h.hasAdapter = false) ∧
  ((fail needWebGPUMsg ∈ r.trace) ↔ (h.hasAdapter = true ∧ h.hasDevice = false)) ∧
  r.trace.countP (fun e => isRequestAdapter e.call) ≤ 1 ∧
  r.trace.countP (fun e => isRequestDevice e.call) ≤ 1

/-! ## Auxiliary lemmas about the dispatched compute shader -/

/-- Dispatching the first `n` invocations of the doubling shader doubles
the first `n` elements of the buffer and leaves the rest. -/
theorem runDispatch_take (data : List ℚ) (n : Nat) (h : n ≤ data.length) :
    runDispatch data n = (data.take n).map (fun x => 2 * x) ++ data.drop n := by
  induction n with
  | zero => simp [runDispatch]
  | succ n ih =>
    have hn : n < data.length := h
    have ihn := ih (le_of_lt hn)
    rw [runDispatch, List.range_succ, List.foldl_append] at *
    rw [ihn]
    simp only [List.foldl_cons, List.foldl_nil]
    unfold shaderInvocation
    have hlen : ((data.take n).map (fun x => 2 * x)).length = n := by
      simp [List.length_take, Nat.min_eq_left (le_of_lt hn)]
    have hdrop : data.drop n = data[n] :: data.drop (n + 1) :=
      List.drop_eq_getElem_cons hn
    rw [hdrop]
    rw [List.getD_append_right _ _ _ _ hlen.le, hlen]
    simp only [Nat.sub_self, List.getD_cons_zero]
    rw [List.set_append_right _ _ hlen.le, hlen, Nat.sub_self]
    simp only [List.set_cons_zero]
    rw [List.take_succ, List.getElem?_eq_getElem hn]
    simp only [Option.toList_some, List.map_append, List.map_singleton,
      List.append_assoc, List.singleton_append]

/-- `dispatchWorkgroups(input.length)` doubles every element of the work
buffer. -/
theorem runDispatch_full (data : List ℚ) :
    runDispatch data data.length = data.map (fun x => 2 * x) := by
  rw [runDispatch_take data data.length le_rfl]
  simp

/-- `runDispatch` over the converted input, phrased on the input's
length (as `doubleGPU` uses it). -/
theorem runDispatch_map (toF32 : ℚ → ℚ) (numbers : List ℚ) :
    runDispatch (numbers.map toF32) numbers.length =
      numbers.map ((fun x => 2 * x) ∘ toF32) := by
  have h := runDispatch_full (numbers.map toF32)
  rw [List.length_map] at h
  rw [h, List.map_map]

/-! ## The claims -/

/-- C1: in every snippet function, if device acquisition yields no device
(an adapter was obtained but `requestDevice` resolved falsy), `fail` is
called — a pop-up alert with "need a browser that supports WebGPU" — and
the function returns early (`undefined`) with no further GPU API call:
the whole trace is `requestAdapter`, `requestDevice`, `alert`. -/
theorem missing_device_alerts_and_returns (h : Host) (canvas : Nat)
    (shader : ShaderDesc) (fs : Option ShaderDesc) (toF32 : ℚ → ℚ)
    (numbers : List ℚ) (ha : h.hasAdapter = true) (hd : h.hasDevice = false) :
    drawTrianglesToTextures h canvas =
      ⟨.ok .undef, acquireEvents ++ [fail needWebGPUMsg]⟩ ∧
    doubleGPU h toF32 numbers =
      ⟨.ok .undef, acquireEvents ++ [fail needWebGPUMsg]⟩ ∧
    drawTriangleWithShader h shader fs =
      ⟨.ok .undef, acquireEvents ++ [fail needWebGPUMsg]⟩ := by
  refine ⟨?_, ?_, ?_⟩ <;>
    simp [drawTrianglesToTextures, doubleGPU, drawTriangleWithShader, ha, hd]

/-- Witness for C1 at a concrete host with an adapter but no device. -/
theorem missing_device_alerts_and_returns_witness :
    drawTrianglesToTextures ⟨true, false, "bgra8unorm", 0⟩ 5 =
      ⟨.ok .undef, acquireEvents ++ [fail needWebGPUMsg]⟩ ∧
    doubleGPU ⟨true, false, "bgra8unorm", 0⟩ id [1, 3, 5] =
      ⟨.ok .undef, acquireEvents ++ [fail needWebGPUMsg]⟩ ∧
    drawTriangleWithShader ⟨true, false, "bgra8unorm", 0⟩ redTriangleShader none =
      ⟨.ok .undef, acquireEvents ++ [fail needWebGPUMsg]⟩ :=
  missing_device_alerts_and_returns ⟨true, false, "bgra8unorm", 0⟩ 5
    redTriangleShader none id [1, 3, 5] rfl rfl

/-- C4: in every snippet function, when `requestAdapter` resolves to
`null`, the member call `adapter.requestDevice()` throws before the
`if (!device)` check: the promise rejects with an uncaught `TypeError`
and the trace stops at `requestAdapter` — in particular no `alert` is
ever shown on this path. -/
theorem null_adapter_throws_before_alert (h : Host) (canvas : Nat)
    (shader : ShaderDesc) (fs : Option ShaderDesc) (toF32 : ℚ → ℚ)
    (numbers : List ℚ) (ha : h.hasAdapter = false) :
    drawTrianglesToTextures h canvas =
      ⟨.error adapterNullError, [⟨true, .requestAdapter⟩]⟩ ∧
    doubleGPU h toF32 numbers =
      ⟨.error adapterNullError, [⟨true, .requestAdapter⟩]⟩ ∧
    drawTriangleWithShader h shader fs =
      ⟨.error adapterNullError, [⟨true, .requestAdapter⟩]⟩ := by
  refine ⟨?_, ?_, ?_⟩ <;>
    simp [drawTrianglesToTextures, doubleGPU, drawTriangleWithShader, ha]

/-- Witness for C4 at a concrete adapter-less host. -/
theorem null_adapter_throws_before_alert_witness :
    drawTrianglesToTextures ⟨false, true, "bgra8unorm", 0⟩ 5 =
      ⟨.error adapterNullError, [⟨true, .requestAdapter⟩]⟩ ∧
    doubleGPU ⟨false, true, "bgra8unorm", 0⟩ id [1, 3, 5] =
      ⟨.error adapterNullError, [⟨true, .requestAdapter⟩]⟩ ∧
    drawTriangleWithShader ⟨false, true, "bgra8unorm", 0⟩ redTriangleShader none =
      ⟨.error adapterNullError, [⟨true, .requestAdapter⟩]⟩ :=
  null_adapter_throws_before_alert ⟨false, true, "bgra8unorm", 0⟩ 5
    redTriangleShader none id [1, 3, 5] rfl

/-- C2: across all hosts and arguments, every awaited call in a snippet's
trace is one of the two acquisition calls (`navigator.gpu.requestAdapter`,
`adapter.requestDevice`) — plus, in `doubleGPU` only,
`resultBuffer.mapAsync(GPUMapMode.READ)`; nothing else is awaited. -/
theorem awaited_only_acquisition_and_map (h : Host) (canvas : Nat)
    (shader : ShaderDesc) (fs : Option ShaderDesc) (toF32 : ℚ → ℚ)
    (numbers : List ℚ) :
    ((drawTrianglesToTextures h canvas).trace.all
      fun e => !e.awaited || acquisitionCall e.call) = true ∧
    ((drawTriangleWithShader h shader fs).trace.all
      fun e => !e.awaited || acquisitionCall e.call) = true ∧
    ((doubleGPU h toF32 numbers).trace.all
      fun e => !e.awaited ||
        (acquisitionCall e.call || e.call == Ev.mapAsync GPUMapMode.READ)) = true := by
  obtain ⟨ha, hd, fmt, nc⟩ := h
  cases ha <;> cases hd <;> cases fs <;>
    simp [drawTrianglesToTextures, doubleGPU, drawTriangleWithShader,
      acquireEvents, renderEvents, fail, acquisitionCall]

/-- C3: once an adapter and a device are obtained, every snippet issues
this exact ordered sequence of host calls: first the two acquisition
calls, then shader-module / pipeline (and, for `doubleGPU`, buffer)
creation from the inline hardcoded descriptors, and finally exactly one
`draw(3)` (render snippets) or one `dispatchWorkgroups` (compute
snippet) before `finish`/`submit`. -/
theorem snippet_call_order (h : Host) (canvas : Nat) (shader : ShaderDesc)
    (fs : Option ShaderDesc) (toF32 : ℚ → ℚ) (numbers : List ℚ)
    (ha : h.hasAdapter = true) (hd : h.hasDevice = true) :
    (drawTrianglesToTextures h canvas).trace =
      [⟨true, .requestAdapter⟩, ⟨true, .requestDevice⟩,
       ⟨false, .getContext "webgpu"⟩, ⟨false, .getPreferredCanvasFormat⟩,
       ⟨false, .configure h.preferredFormat⟩,
       ⟨false, .createShaderModule 0 redTriangleShader⟩,
       ⟨false, .createRenderPipeline "our hardcoded red triangle pipeline"
          "auto" 0 0 h.preferredFormat⟩,
       ⟨false, .getCurrentTexture⟩, ⟨false, .createView⟩,
       ⟨false, .createCommandEncoder "our encoder"⟩,
       ⟨false, .beginRenderPass "our basic canvas renderPass"
          [3/10, 3/10, 3/10, 1] "clear" "store"⟩,
       ⟨false, .setPipeline⟩, ⟨false, .draw 3⟩, ⟨false, .endPass⟩,
       ⟨false, .finish⟩, ⟨false, .submit⟩] ∧
    (doubleGPU h toF32 numbers).trace =
      [⟨true, .requestAdapter⟩, ⟨true, .requestDevice⟩,
       ⟨false, .createShaderModule 0 doublingShader⟩,
       ⟨false, .createComputePipeline "doubling compute pipeline" "auto" 0⟩,
       ⟨false, .createBuffer 0 "work buffer" (4 * numbers.length)
          (GPUBufferUsage.STORAGE ||| GPUBufferUsage.COPY_SRC |||
           GPUBufferUsage.COPY_DST)⟩,
       ⟨false, .writeBuffer 0 0 (numbers.map toF32)⟩,
       ⟨false, .createBuffer 1 "result buffer" (4 * numbers.length)
          (GPUBufferUsage.MAP_READ ||| GPUBufferUsage.COPY_DST)⟩,
       ⟨false, .getBindGroupLayout 0⟩,
       ⟨false, .createBindGroup "bindGroup for work buffer" 0 0⟩,
       ⟨false, .createCommandEncoder "doubling encoder"⟩,
       ⟨false, .beginComputePass "doubling compute pass"⟩,
       ⟨false, .setPipeline⟩, ⟨false, .setBindGroup 0⟩,
       ⟨false, .dispatchWorkgroups numbers.length⟩, ⟨false, .endPass⟩,
       ⟨false, .copyBufferToBuffer 0 0 1 0 (4 * numbers.length)⟩,
       ⟨false, .finish⟩, ⟨false, .submit⟩,
       ⟨true, .mapAsync GPUMapMode.READ⟩,
       ⟨false, .getMappedRange⟩, ⟨false, .unmap⟩] ∧
    (drawTriangleWithShader h shader fs).trace =
      [⟨true, .requestAdapter⟩, ⟨true, .requestDevice⟩,
       ⟨false, .getContext "webgpu"⟩, ⟨false, .getPreferredCanvasFormat⟩,
       ⟨false, .configure h.preferredFormat⟩,
       ⟨false, .createShaderModule 0 shader⟩] ++
      (match fs with
       | some f => [⟨false, .createShaderModule 1 f⟩]
       | none => []) ++
      [⟨false, .createRenderPipeline "our hardcoded red triangle pipeline"
          "auto" 0 (if fs.isSome then 1 else 0) h.preferredFormat⟩,
       ⟨false, .getCurrentTexture⟩, ⟨false, .createView⟩,
       ⟨false, .createCommandEncoder "our encoder"⟩,
       ⟨false, .beginRenderPass "our basic canvas renderPass"
          [3/10, 3/10, 3/10, 1] "clear" "store"⟩,
       ⟨false, .setPipeline⟩, ⟨false, .draw 3⟩, ⟨false, .endPass⟩,
       ⟨false, .finish⟩, ⟨false, .submit⟩] := by
  refine ⟨?_, ?_, ?_⟩ <;>
    cases fs <;>
      simp [drawTrianglesToTextures, doubleGPU, drawTriangleWithShader,
        ha, hd, acquireEvents, renderEvents]

/-- Witness for C3: the three full traces at a concrete host have 16, 21
and 16 calls respectively. -/
theorem snippet_call_order_witness :
    (drawTrianglesToTextures ⟨true, true, "bgra8unorm", 0⟩ 5).trace.length = 16 ∧
    (doubleGPU ⟨true, true, "bgra8unorm", 0⟩ id [1, 3, 5]).trace.length = 21 ∧
    (drawTriangleWithShader ⟨true, true, "bgra8unorm", 0⟩
      redTriangleShader none).trace.length = 16 := by
  obtain ⟨h1, h2, h3⟩ :=
    snippet_call_order ⟨true, true, "bgra8unorm", 0⟩ 5 redTriangleShader none
      id [1, 3, 5] rfl rfl
  rw [h1, h2, h3]
  refine ⟨rfl, rfl, rfl⟩

/-- C5: for every input list, `doubleGPU` (once a device is obtained)
resolves with a `Float32Array` of the same length as the input whose
`i`-th element is twice the f32-converted value of the `i`-th input
element. -/
theorem doubleGPU_doubles (h : Host) (toF32 : ℚ → ℚ) (numbers : List ℚ)
    (ha : h.hasAdapter = true) (hd : h.hasDevice = true) :
    ∃ out : List ℚ,
      (doubleGPU h toF32 numbers).result = .ok (.floatArray out) ∧
      out.length = numbers.length ∧
      ∀ i, i < numbers.length → out.getD i 0 = 2 * toF32 (numbers.getD i 0) := by
  refine ⟨(numbers.map toF32).map (fun x => 2 * x), ?_, by simp, ?_⟩
  · simp [doubleGPU, ha, hd, runDispatch_map]
  · intro i hi
    have hi2 : i < ((numbers.map toF32).map (fun x => 2 * x)).length := by
      simpa using hi
    have hi1 : i < (numbers.map toF32).length := by simpa using hi
    rw [List.getD_eq_getElem _ _ hi2, List.getD_eq_getElem _ _ hi]
    simp

/-- Witness for C5 on the document's own example input `[1, 3, 5]`. -/
theorem doubleGPU_doubles_witness :
    ∃ out : List ℚ,
      (doubleGPU ⟨true, true, "bgra8unorm", 0⟩ id [1, 3, 5]).result =
        .ok (.floatArray out) ∧
      out.length = ([1, 3, 5] : List ℚ).length ∧
      ∀ i, i < ([1, 3, 5] : List ℚ).length →
        out.getD i 0 = 2 * id (([1, 3, 5] : List ℚ).getD i 0) :=
  doubleGPU_doubles ⟨true, true, "bgra8unorm", 0⟩ id [1, 3, 5] rfl rfl

/-- C6: beyond the missing-device alert-and-return path, no snippet has
any other error handling: for each snippet, the promise rejects (nothing
is caught) exactly when the adapter was `null`, the alert is raised
exactly on the adapter-but-falsy-device path, and neither acquisition is
ever retried. -/
theorem no_other_error_handling (h : Host) (canvas : Nat)
    (shader : ShaderDesc) (fs : Option ShaderDesc) (toF32 : ℚ → ℚ)
    (numbers : List ℚ) :
    singleFailurePath h (drawTrianglesToTextures h canvas) ∧
    singleFailurePath h (doubleGPU h toF32 numbers) ∧
    singleFailurePath h (drawTriangleWithShader h shader fs) := by
  obtain ⟨ha, hd, fmt, nc⟩ := h
  cases ha <;> cases hd <;> cases fs <;>
    simp [singleFailurePath, drawTrianglesToTextures, doubleGPU,
      drawTriangleWithShader, acquireEvents, renderEvents, fail,
      isRequestAdapter, isRequestDevice, List.countP_cons]

/-- C7: no GPU handle escapes a snippet call: each snippet resolves only
with a canvas element (`drawTrianglesToTextures` its argument,
`drawTriangleWithShader` the one it freshly created), a `Float32Array`
copy of the mapped result data, or `undefined` from the early return —
or rejects on the null-adapter path.  The embedding is a pure function
into `Run`, reflecting that the source writes no module-level or global
state. -/
theorem snippet_results_transient (h : Host) (canvas : Nat)
    (shader : ShaderDesc) (fs : Option ShaderDesc) (toF32 : ℚ → ℚ)
    (numbers : List ℚ) :
    ((drawTrianglesToTextures h canvas).result = .ok (.canvas canvas) ∨
     (drawTrianglesToTextures h canvas).result = .ok .undef ∨
     (drawTrianglesToTextures h canvas).result = .error adapterNullError) ∧
    ((doubleGPU h toF32 numbers).result =
        .ok (.floatArray ((numbers.map toF32).map fun x => 2 * x)) ∨
     (doubleGPU h toF32 numbers).result = .ok .undef ∨
     (doubleGPU h toF32 numbers).result = .error adapterNullError) ∧
    ((drawTriangleWithShader h shader fs).result = .ok (.canvas h.newCanvas) ∨
     (drawTriangleWithShader h shader fs).result = .ok .undef ∨
     (drawTriangleWithShader h shader fs).result = .error adapterNullError) := by
  obtain ⟨ha, hd, fmt, nc⟩ := h
  cases ha <;> cases hd <;>
    simp [drawTrianglesToTextures, doubleGPU, drawTriangleWithShader,
      runDispatch_map]

/-- C8: `drawTrianglesToTextures` is deterministic in the GPU calls it
issues: whatever canvas is passed, once a device is obtained it executes
the same fixed call sequence with the same descriptor arguments
(`configure`, `createShaderModule`, `createRenderPipeline`,
`createCommandEncoder`, `beginRenderPass`, `setPipeline`, `draw(3)`,
`end`, `finish`, `submit`), fixed by the host's preferred format alone. -/
theorem drawTrianglesToTextures_deterministic (h : Host) (c1 c2 : Nat)
    (ha : h.hasAdapter = true) (hd : h.hasDevice = true) :
    (drawTrianglesToTextures h c1).trace = (drawTrianglesToTextures h c2).trace ∧
    (drawTrianglesToTextures h c1).trace =
      [⟨true, .requestAdapter⟩, ⟨true, .requestDevice⟩,
       ⟨false, .getContext "webgpu"⟩, ⟨false, .getPreferredCanvasFormat⟩,
       ⟨false, .configure h.preferredFormat⟩,
       ⟨false, .createShaderModule 0 redTriangleShader⟩,
       ⟨false, .createRenderPipeline "our hardcoded red triangle pipeline"
          "auto" 0 0 h.preferredFormat⟩,
       ⟨false, .getCurrentTexture⟩, ⟨false, .createView⟩,
       ⟨false, .createCommandEncoder "our encoder"⟩,
       ⟨false, .beginRenderPass "our basic canvas renderPass"
          [3/10, 3/10, 3/10, 1] "clear" "store"⟩,
       ⟨false, .setPipeline⟩, ⟨false, .draw 3⟩, ⟨false, .endPass⟩,
       ⟨false, .finish⟩, ⟨false, .submit⟩] := by
  refine ⟨?_, ?_⟩ <;>
    simp [drawTrianglesToTextures, ha, hd, acquireEvents, renderEvents]

/-- Witness for C8: two runs on different canvases of a concrete host
issue identical traces. -/
theorem drawTrianglesToTextures_deterministic_witness :
    (drawTrianglesToTextures ⟨true, true, "bgra8unorm", 0⟩ 1).trace =
      (drawTrianglesToTextures ⟨true, true, "bgra8unorm", 0⟩ 2).trace :=
  (drawTrianglesToTextures_deterministic ⟨true, true, "bgra8unorm", 0⟩
    1 2 rfl rfl).1

/-- C9: with no separate fragment module, `drawTriangleWithShader` issues
exactly the call sequence of `drawTrianglesToTextures` — same pipeline
descriptor shape, same render-pass descriptor (clear to
`[0.3, 0.3, 0.3, 1]`, `loadOp "clear"`, `storeOp "store"`), same
`draw(3)`/`end`/`finish`/`submit` tail — differing only in the
shader-module descriptor (and in how the canvas is obtained, which is
invisible to the GPU call sequence); with a second `fragmentShader`
argument a second shader module is created from it and the pipeline's
fragment stage uses that module (creation index 1) instead of the vertex
module (index 0). -/
theorem drawTriangleWithShader_matches_fundamentals (h : Host)
    (canvas : Nat) (shader fsDesc : ShaderDesc)
    (ha : h.hasAdapter = true) (hd : h.hasDevice = true) :
    eraseShaderDescs (drawTriangleWithShader h shader none).trace =
      eraseShaderDescs (drawTrianglesToTextures h canvas).trace ∧
    (drawTriangleWithShader h shader (some fsDesc)).trace =
      [⟨true, .requestAdapter⟩, ⟨true, .requestDevice⟩,
       ⟨false, .getContext "webgpu"⟩, ⟨false, .getPreferredCanvasFormat⟩,
       ⟨false, .configure h.preferredFormat⟩,
       ⟨false, .createShaderModule 0 shader⟩,
       ⟨false, .createShaderModule 1 fsDesc⟩,
       ⟨false, .createRenderPipeline "our hardcoded red triangle pipeline"
          "auto" 0 1 h.preferredFormat⟩,
       ⟨false, .getCurrentTexture⟩, ⟨false, .createView⟩,
       ⟨false, .createCommandEncoder "our encoder"⟩,
       ⟨false, .beginRenderPass "our basic canvas renderPass"
          [3/10, 3/10, 3/10, 1] "clear" "store"⟩,
       ⟨false, .setPipeline⟩, ⟨false, .draw 3⟩, ⟨false, .endPass⟩,
       ⟨false, .finish⟩, ⟨false, .submit⟩] := by
  constructor
  · simp [eraseShaderDescs, eraseShaderDesc, drawTriangleWithShader,
      drawTrianglesToTextures, ha, hd, acquireEvents, renderEvents]
  · simp [drawTriangleWithShader, ha, hd, acquireEvents, renderEvents]

/-- Witness for C9 at a concrete host, with the compute shader standing
in for an arbitrary shader argument. -/
theorem drawTriangleWithShader_matches_fundamentals_witness :
    eraseShaderDescs (drawTriangleWithShader ⟨true, true, "bgra8unorm", 3⟩
        doublingShader none).trace =
      eraseShaderDescs (drawTrianglesToTextures ⟨true, true, "bgra8unorm", 3⟩
        5).trace :=
  (drawTriangleWithShader_matches_fundamentals ⟨true, true, "bgra8unorm", 3⟩
    5 doublingShader redTriangleShader rfl rfl).1

/-- C10: the theme's braces transform turns a brace-delimited code block
`c` into the source of an immediately invoked arrow function, exactly
`"(() => " ++ c ++ ")()"`. -/
theorem bracesTransform_iife (c : String) :
    bracesTransform c = "(() => " ++ c ++ ")()" := rfl

end LearningWebGPU
